import Mathlib

/-!
Shallow embedding of the LifeLink blood-donation backend
(src/supabase/functions/server/index.tsx, src/supabase/functions/verify-blood-request/index.ts,
and the authorization helpers), together with proofs about its behaviour.

Key-value store keys are modelled as lists of characters, mirroring the
template-string concatenation used by the source code.
-/

/-- Blood-type compatibility table, translated from getCompatibleDonors in
src/supabase/functions/server/index.tsx (lines 53-66). JavaScript object
lookup with a fallback to the empty array becomes a chain of string tests. -/
def getCompatibleDonors (recipientBloodType : String) : List String :=
  if recipientBloodType = "A+" then ["A+", "A-", "O+", "O-"]
  else if recipientBloodType = "A-" then ["A-", "O-"]
  else if recipientBloodType = "B+" then ["B+", "B-", "O+", "O-"]
  else if recipientBloodType = "B-" then ["B-", "O-"]
  else if recipientBloodType = "AB+" then ["A+", "A-", "B+", "B-", "AB+", "AB-", "O+", "O-"]
  else if recipientBloodType = "AB-" then ["A-", "B-", "AB-", "O-"]
  else if recipientBloodType = "O+" then ["O+", "O-"]
  else if recipientBloodType = "O-" then ["O-"]
  else []

/-- The eight canonical blood types (keys of the compatibility object). -/
def canonicalBloodTypes : List String :=
  ["A+", "A-", "B+", "B-", "AB+", "AB-", "O+", "O-"]

/-- Row of the profiles table, restricted to the columns selected by the
find-donors handler plus the columns it filters on. -/
structure DBProfile where
  id : String
  full_name : String
  blood_group : String
  location : Option String
  phone_number : Option String
  availability_status : String
  role : String
  profile_complete : Bool
deriving DecidableEq, Repr

/-- Successful response body of the find-donors endpoint. -/
structure FindDonorsOk where
  donors : List DBProfile
  blood_group_needed : String
  compatible_types : List String
deriving DecidableEq, Repr

/-- POST /find-donors handler (index.tsx lines 69-108). The supabase query
chain .eq role / .eq profile_complete / .eq availability_status /
.in blood_group becomes a list filter; hospital_location and radius_km are
destructured from the body but never used, exactly as in the source.
A missing or empty blood group (falsy in JavaScript) yields a 400. -/
def findDonors (profiles : List DBProfile) (blood_group_needed : Option String)
    (hospital_location : Option String) (radius_km : Nat) : Except Nat FindDonorsOk :=
  match blood_group_needed with
  | none => Except.error 400
  | some bg =>
    if bg = "" then Except.error 400
    else
      let compat := getCompatibleDonors bg
      Except.ok
        { donors := profiles.filter (fun p =>
            p.role == "individual" && p.profile_complete &&
            p.availability_status == "Available" && compat.contains p.blood_group)
          blood_group_needed := bg
          compatible_types := compat }

/-- C1: for every one of the 8 canonical blood types the compatibility lookup
returns exactly the medically-correct donor set, and every other input string
returns the empty set. -/
theorem getCompatibleDonors_canonical_and_default :
    (getCompatibleDonors "A+" = ["A+", "A-", "O+", "O-"] ∧
     getCompatibleDonors "A-" = ["A-", "O-"] ∧
     getCompatibleDonors "B+" = ["B+", "B-", "O+", "O-"] ∧
     getCompatibleDonors "B-" = ["B-", "O-"] ∧
     getCompatibleDonors "AB+" = ["A+", "A-", "B+", "B-", "AB+", "AB-", "O+", "O-"] ∧
     getCompatibleDonors "AB-" = ["A-", "B-", "AB-", "O-"] ∧
     getCompatibleDonors "O+" = ["O+", "O-"] ∧
     getCompatibleDonors "O-" = ["O-"]) ∧
    ∀ s : String, s ∉ canonicalBloodTypes → getCompatibleDonors s = [] := by
  refine ⟨⟨rfl, rfl, rfl, rfl, rfl, rfl, rfl, rfl⟩, ?_⟩
  intro s hs
  simp only [canonicalBloodTypes, List.mem_cons, List.not_mem_nil, or_false, not_or] at hs
  obtain ⟨h1, h2, h3, h4, h5, h6, h7, h8⟩ := hs
  simp [getCompatibleDonors, h1, h2, h3, h4, h5, h6, h7, h8]

/-- Witness for C1: the unrecognized input clause evaluated at a concrete
non-canonical string. -/
theorem getCompatibleDonors_canonical_and_default_witness :
    ("C+" : String) ∉ canonicalBloodTypes ∧ getCompatibleDonors "C+" = [] :=
  ⟨by decide, getCompatibleDonors_canonical_and_default.2 "C+" (by decide)⟩

/-- C2: every profile returned by the donor query satisfies all four filters:
role individual, profile complete, availability Available, and blood group in
the compatible-donor set of the requested type. -/
theorem findDonors_filters (profiles : List DBProfile) (bg : String)
    (hospital_location : Option String) (radius_km : Nat) (res : FindDonorsOk)
    (h : findDonors profiles (some bg) hospital_location radius_km = Except.ok res) :
    ∀ p ∈ res.donors, p.role = "individual" ∧ p.profile_complete = true ∧
      p.availability_status = "Available" ∧ p.blood_group ∈ getCompatibleDonors bg := by
  intro p hp
  simp only [findDonors] at h
  split at h
  · exact absurd h (by simp)
  · simp only [Except.ok.injEq] at h
    subst h
    simp only [List.mem_filter, Bool.and_eq_true, beq_iff_eq] at hp
    obtain ⟨-, ⟨⟨⟨hrole, hcomp⟩, havail⟩, hbg⟩⟩ := hp
    exact ⟨hrole, hcomp, havail, List.elem_iff.mp hbg⟩

/-- Witness for C2: a concrete store with one matching donor. -/
theorem findDonors_filters_witness :
    let donor : DBProfile :=
      ⟨"d1", "Dana", "O-", none, none, "Available", "individual", true⟩
    donor.role = "individual" ∧ donor.profile_complete = true ∧
      donor.availability_status = "Available" ∧
      donor.blood_group ∈ getCompatibleDonors "A-" :=
  findDonors_filters [⟨"d1", "Dana", "O-", none, none, "Available", "individual", true⟩]
    "A-" (some "loc") 50
    { donors := [⟨"d1", "Dana", "O-", none, none, "Available", "individual", true⟩]
      blood_group_needed := "A-"
      compatible_types := ["A-", "O-"] }
    rfl ⟨"d1", "Dana", "O-", none, none, "Available", "individual", true⟩ (by decide)

/-- C9: the find-donors result is the same for all values of the geographic
hint and the search radius; these inputs never influence the output. -/
theorem findDonors_location_radius_independent (profiles : List DBProfile)
    (blood_group_needed : Option String)
    (loc1 loc2 : Option String) (r1 r2 : Nat) :
    findDonors profiles blood_group_needed loc1 r1 =
      findDonors profiles blood_group_needed loc2 r2 := rfl

/-!
Key-value store model.

Modelled from the spec: the file kv_store.tsx imported by the server is not
part of the provided sources; the spec describes it as a key-value store
with upsert (set), point lookup (get) and prefix scan (getByPrefix). Keys
are the template strings built by the server; they are modelled as lists of
characters so that string concatenation is list append.
-/

/-- Notification record, as synthesized by the notify-donors handler
(index.tsx lines 136-144). The ISO creation timestamp is modelled as a
natural number (milliseconds since epoch, what the reader compares). -/
structure Notification where
  id : String
  donor_id : String
  request_id : String
  message : String
  urgency : String
  created_at : Nat
  read : Bool
deriving DecidableEq, Repr

/-- KV keys are character lists: template-string interpolation is append. -/
abbrev Key := List Char

/-- Characters of the primary-key template prefix notification colon. -/
def notifMarker : Key := "notification:".data

/-- Characters of the index-key template prefix donor_notifications colon. -/
def donorMarker : Key := "donor_notifications:".data

/-- Values stored in the KV store: a full notification record under a
primary key, or a bare notification identifier under an index key. -/
inductive KVValue where
  | notif (n : Notification)
  | str (s : String)
deriving DecidableEq, Repr

instance : Inhabited KVValue := ⟨KVValue.str ""⟩

/-- The KV store is a finite association list of key-value pairs. -/
abbrev KVStore := List (Key × KVValue)

/-- Modelled from the spec: point lookup in the key-value store. -/
def kvGet (store : KVStore) (k : Key) : Option KVValue :=
  match store with
  | [] => none
  | (k1, v) :: rest => if k1 = k then some v else kvGet rest k

/-- Modelled from the spec: upsert into the key-value store; an existing
key is overwritten in place, a new key is appended. -/
def kvSet (store : KVStore) (k : Key) (v : KVValue) : KVStore :=
  match store with
  | [] => [(k, v)]
  | (k1, v1) :: rest =>
    if k1 = k then (k, v) :: rest else (k1, v1) :: kvSet rest k v

/-- Boolean prefix test on character lists, used to model getByPrefix. -/
def isPrefixB : List Char → List Char → Bool
  | [], _ => true
  | _ :: _, [] => false
  | a :: xs, b :: ys => a = b && isPrefixB xs ys

/-- Primary key of a notification record: the template string
notification:id from the source. -/
def nKey (id : String) : Key := notifMarker ++ id.data

/-- Prefix scanned by the reader for one donor: the template string
ending in a colon. -/
def dPrefix (donorId : String) : Key :=
  donorMarker ++ donorId.data ++ [':']

/-- Donor-scoped index key written by the notify handler: the template
string donor_notifications colon donor colon id. -/
def dKey (donorId id : String) : Key := dPrefix donorId ++ id.data

/-- Row of the blood_requests table (columns used by the handlers). -/
structure BloodRequest where
  id : String
  requester_id : String
  hospital_id : String
  blood_group_needed : String
  urgency : String
  status : String
deriving DecidableEq, Repr

/-- Row of the hospitals table (columns used by the handlers). -/
structure Hospital where
  id : String
  name : String
  address : String
deriving DecidableEq, Repr

/-- Notification batch built by donor_ids.map in the notify-donors handler:
one record per donor identifier, identifiers drawn from the uuid supply
(modelling crypto.randomUUID), read false, urgency copied from the request,
message interpolating blood group and hospital name. -/
def mkNotifications (uuid : Nat → String) (now : Nat) (request_id : String)
    (req : BloodRequest) (hospitalName : String) : Nat → List String → List Notification
  | _, [] => []
  | i, d :: ds =>
    { id := uuid i
      donor_id := d
      request_id := request_id
      message := "New blood donation request: " ++ req.blood_group_needed ++
        " needed at " ++ hospitalName
      urgency := req.urgency
      created_at := now
      read := false } :: mkNotifications uuid now request_id req hospitalName (i + 1) ds

/-- Write loop of the notify-donors handler: for each notification, one
kv.set under the primary key and one kv.set under the donor-scoped index
key, in order. -/
def storeNotifications (store : KVStore) : List Notification → KVStore
  | [] => store
  | n :: ns =>
    storeNotifications
      (kvSet (kvSet store (nKey n.id) (KVValue.notif n)) (dKey n.donor_id n.id)
        (KVValue.str n.id)) ns

/-- Successful response of the notify-donors endpoint, paired with the
resulting store. -/
structure NotifyOk where
  store : KVStore
  notifications_count : Nat
deriving DecidableEq, Repr

/-- POST /notify-donors handler (index.tsx lines 111-162). Missing body
fields give 400 (an empty request id is falsy in JavaScript); a request id
that matches no blood_requests row gives 404; a dangling hospital join makes
the message template throw, caught as 500. Otherwise one notification per
donor identifier is built and written twice. -/
def notifyDonors (requests : List BloodRequest) (hospitals : List Hospital)
    (store : KVStore) (uuid : Nat → String) (now : Nat)
    (request_id : Option String) (donor_ids : Option (List String)) :
    Except Nat NotifyOk :=
  match request_id, donor_ids with
  | some rid, some dids =>
    if rid = "" then Except.error 400
    else
      match requests.find? (fun r => r.id == rid) with
      | none => Except.error 404
      | some req =>
        match hospitals.find? (fun h => h.id == req.hospital_id) with
        | none => Except.error 500
        | some hosp =>
          let notifs := mkNotifications uuid now rid req hosp.name 0 dids
          Except.ok
            { store := storeNotifications store notifs
              notifications_count := notifs.length }
  | _, _ => Except.error 400

/-- Key-value pairs written for one notification batch: for each record the
primary pair followed by the donor-scoped index pair. -/
def notifPairs : List Notification → KVStore
  | [] => []
  | n :: ns =>
    (nKey n.id, KVValue.notif n) :: (dKey n.donor_id n.id, KVValue.str n.id) :: notifPairs ns

/-- Keys of the pairs written for one notification batch. -/
def notifKeys (ns : List Notification) : List Key := (notifPairs ns).map Prod.fst

/-- Number of primary notification records in a store. -/
def countPrimary (store : KVStore) : Nat :=
  (store.filter (fun e => isPrefixB notifMarker e.1)).length

/-- Number of donor-scoped index records in a store. -/
def countIndex (store : KVStore) : Nat :=
  (store.filter (fun e => isPrefixB donorMarker e.1)).length

theorem kvGet_kvSet_self (store : KVStore) (k : Key) (v : KVValue) :
    kvGet (kvSet store k v) k = some v := by
  induction store with
  | nil => simp [kvSet, kvGet]
  | cons e rest ih =>
    obtain ⟨k1, v1⟩ := e
    by_cases h : k1 = k
    · simp [kvSet, kvGet, h]
    · simp [kvSet, kvGet, h, ih]

theorem kvGet_kvSet_ne (store : KVStore) (k k2 : Key) (v : KVValue) (h : k2 ≠ k) :
    kvGet (kvSet store k v) k2 = kvGet store k2 := by
  have hks : ¬ k = k2 := fun hh => h hh.symm
  induction store with
  | nil => simp [kvSet, kvGet, hks]
  | cons e rest ih =>
    obtain ⟨k1, v1⟩ := e
    by_cases h1 : k1 = k
    · subst h1
      simp [kvSet, kvGet, hks]
    · simp only [kvSet, if_neg h1, kvGet]
      by_cases h2 : k1 = k2
      · simp [h2]
      · simp [h2, ih]

theorem kvSet_fresh (store : KVStore) (k : Key) (v : KVValue)
    (h : kvGet store k = none) : kvSet store k v = store ++ [(k, v)] := by
  induction store with
  | nil => rfl
  | cons e rest ih =>
    obtain ⟨k1, v1⟩ := e
    by_cases h1 : k1 = k
    · simp [kvGet, h1] at h
    · simp only [kvGet, if_neg h1] at h
      simp [kvSet, h1, ih h]

theorem kvGet_append_of_none (s1 s2 : KVStore) (k : Key) (h : kvGet s1 k = none) :
    kvGet (s1 ++ s2) k = kvGet s2 k := by
  induction s1 with
  | nil => rfl
  | cons e rest ih =>
    obtain ⟨k1, v1⟩ := e
    by_cases h1 : k1 = k
    · simp [kvGet, h1] at h
    · simp only [kvGet, if_neg h1] at h
      simp [kvGet, if_neg h1, ih h]

theorem storeNotifications_eq_append (ns : List Notification) :
    ∀ store : KVStore, (notifKeys ns).Nodup →
      (∀ k ∈ notifKeys ns, kvGet store k = none) →
      storeNotifications store ns = store ++ notifPairs ns := by
  induction ns with
  | nil => intro store _ _; simp [storeNotifications, notifPairs]
  | cons n ns ih =>
    intro store hnd hfresh
    have hkeys : notifKeys (n :: ns) =
        nKey n.id :: dKey n.donor_id n.id :: notifKeys ns := rfl
    rw [hkeys] at hnd hfresh
    have hk1 : kvGet store (nKey n.id) = none := hfresh _ (by simp)
    have hk2s : kvGet store (dKey n.donor_id n.id) = none := hfresh _ (by simp)
    have hne : nKey n.id ≠ dKey n.donor_id n.id := by
      have := hnd
      simp only [List.nodup_cons, List.mem_cons] at this
      exact fun hh => this.1 (Or.inl hh)
    have h1 : kvSet store (nKey n.id) (KVValue.notif n) = store ++ [(nKey n.id, KVValue.notif n)] :=
      kvSet_fresh _ _ _ hk1
    have hk2 : kvGet (store ++ [(nKey n.id, KVValue.notif n)]) (dKey n.donor_id n.id) = none := by
      rw [kvGet_append_of_none _ _ _ hk2s]
      simp [kvGet, hne]
    have h2 : kvSet (store ++ [(nKey n.id, KVValue.notif n)]) (dKey n.donor_id n.id)
        (KVValue.str n.id) =
        store ++ [(nKey n.id, KVValue.notif n), (dKey n.donor_id n.id, KVValue.str n.id)] := by
      rw [kvSet_fresh _ _ _ hk2, List.append_assoc]
      rfl
    have hnd2 : (notifKeys ns).Nodup := by
      simp only [List.nodup_cons] at hnd
      exact hnd.2.2
    have hfresh2 : ∀ k ∈ notifKeys ns,
        kvGet (store ++ [(nKey n.id, KVValue.notif n),
          (dKey n.donor_id n.id, KVValue.str n.id)]) k = none := by
      intro k hk
      have hne1 : nKey n.id ≠ k := by
        simp only [List.nodup_cons, List.mem_cons] at hnd
        exact fun hh => hnd.1 (Or.inr (hh ▸ hk))
      have hne2 : dKey n.donor_id n.id ≠ k := by
        simp only [List.nodup_cons, List.mem_cons] at hnd
        exact fun hh => hnd.2.1 (hh ▸ hk)
      rw [kvGet_append_of_none _ _ _ (hfresh _ (by simp [hk]))]
      simp [kvGet, hne1, hne2]
    calc storeNotifications store (n :: ns)
        = storeNotifications (store ++ [(nKey n.id, KVValue.notif n),
            (dKey n.donor_id n.id, KVValue.str n.id)]) ns := by
          simp only [storeNotifications, h1, h2]
      _ = store ++ [(nKey n.id, KVValue.notif n),
            (dKey n.donor_id n.id, KVValue.str n.id)] ++ notifPairs ns :=
          ih _ hnd2 hfresh2
      _ = store ++ notifPairs (n :: ns) := by
          rw [List.append_assoc]; rfl

theorem isPrefixB_append_self (l t : List Char) : isPrefixB l (l ++ t) = true := by
  induction l with
  | nil => rfl
  | cons a xs ih => simp [isPrefixB, ih]

theorem isPrefixB_nKey (i : String) : isPrefixB notifMarker (nKey i) = true :=
  isPrefixB_append_self _ _

theorem isPrefixB_dKey (d i : String) :
    isPrefixB donorMarker (dKey d i) = true := by
  have h : dKey d i = donorMarker ++ (d.data ++ ':' :: i.data) := by
    simp [dKey, dPrefix, List.append_assoc]
  rw [h]
  exact isPrefixB_append_self _ _

theorem not_isPrefixB_notification_dKey (d i : String) :
    isPrefixB notifMarker (dKey d i) = false := by
  have h1 : notifMarker = 'n' :: "otification:".data := rfl
  have h2 : dKey d i = 'd' :: ("onor_notifications:".data ++ d.data ++ [':'] ++ i.data) := by
    simp [dKey, dPrefix, donorMarker, List.append_assoc]
  rw [h1, h2]
  simp [isPrefixB]

theorem not_isPrefixB_donor_nKey (i : String) :
    isPrefixB donorMarker (nKey i) = false := by
  have h1 : donorMarker = 'd' :: "onor_notifications:".data := rfl
  have h2 : nKey i = 'n' :: ("otification:".data ++ i.data) := by
    simp [nKey, notifMarker]
  rw [h1, h2]
  simp [isPrefixB]

theorem countPrimary_append (s t : KVStore) :
    countPrimary (s ++ t) = countPrimary s + countPrimary t := by
  simp [countPrimary, List.filter_append]

theorem countIndex_append (s t : KVStore) :
    countIndex (s ++ t) = countIndex s + countIndex t := by
  simp [countIndex, List.filter_append]

theorem countPrimary_notifPairs (ns : List Notification) :
    countPrimary (notifPairs ns) = ns.length := by
  induction ns with
  | nil => rfl
  | cons n ns ih =>
    simp only [countPrimary, notifPairs] at ih ⊢
    rw [List.filter_cons, List.filter_cons]
    simp only [isPrefixB_nKey, not_isPrefixB_notification_dKey, if_true, if_false,
      Bool.false_eq_true, List.length_cons, List.length, ih]

theorem countIndex_notifPairs (ns : List Notification) :
    countIndex (notifPairs ns) = ns.length := by
  induction ns with
  | nil => rfl
  | cons n ns ih =>
    simp only [countIndex, notifPairs] at ih ⊢
    rw [List.filter_cons, List.filter_cons]
    simp only [isPrefixB_dKey, not_isPrefixB_donor_nKey, if_true, if_false,
      Bool.false_eq_true, List.length_cons, List.length, ih]

theorem mkNotifications_length (uuid : Nat → String) (now : Nat) (rid : String)
    (req : BloodRequest) (hn : String) :
    ∀ (i : Nat) (ds : List String),
      (mkNotifications uuid now rid req hn i ds).length = ds.length := by
  intro i ds
  induction ds generalizing i with
  | nil => rfl
  | cons d ds ih => simp [mkNotifications, ih]

theorem mkNotifications_fields (uuid : Nat → String) (now : Nat) (rid : String)
    (req : BloodRequest) (hn : String) :
    ∀ (i : Nat) (ds : List String) (n : Notification),
      n ∈ mkNotifications uuid now rid req hn i ds →
      n.read = false ∧ n.urgency = req.urgency ∧ n.created_at = now ∧ n.request_id = rid := by
  intro i ds
  induction ds generalizing i with
  | nil => intro n hn2; simp [mkNotifications] at hn2
  | cons d ds ih =>
    intro n hn2
    simp only [mkNotifications, List.mem_cons] at hn2
    rcases hn2 with h | h
    · subst h; exact ⟨rfl, rfl, rfl, rfl⟩
    · exact ih _ _ h

theorem nKey_mem_notifKeys (ns : List Notification) (n : Notification) (h : n ∈ ns) :
    nKey n.id ∈ notifKeys ns := by
  induction ns with
  | nil => simp at h
  | cons m ms ih =>
    rcases List.mem_cons.mp h with h1 | h1
    · subst h1
      simp [notifKeys, notifPairs]
    · have := ih h1
      simp only [notifKeys, notifPairs, List.map_cons, List.mem_cons]
      right; right
      exact this

/-- Helper describing a successful notify-donors invocation: when the body
is well formed, the request and its hospital resolve, and the freshly drawn
keys collide neither with each other nor with the store, the handler appends
exactly the batch pairs and reports the donor count. -/
theorem notifyDonors_ok (requests : List BloodRequest) (hospitals : List Hospital)
    (store : KVStore) (uuid : Nat → String) (now : Nat) (rid : String)
    (dids : List String) (req : BloodRequest) (hosp : Hospital)
    (hrid : rid ≠ "")
    (hreq : requests.find? (fun r => r.id == rid) = some req)
    (hhosp : hospitals.find? (fun h => h.id == req.hospital_id) = some hosp)
    (hnd : (notifKeys (mkNotifications uuid now rid req hosp.name 0 dids)).Nodup)
    (hfresh : ∀ k ∈ notifKeys (mkNotifications uuid now rid req hosp.name 0 dids),
      kvGet store k = none) :
    notifyDonors requests hospitals store uuid now (some rid) (some dids) =
      Except.ok
        { store := store ++ notifPairs (mkNotifications uuid now rid req hosp.name 0 dids)
          notifications_count := dids.length } := by
  simp only [notifyDonors, if_neg hrid, hreq, hhosp]
  rw [storeNotifications_eq_append _ _ hnd hfresh, mkNotifications_length]

/-- C3: with a resolvable request and N donor identifiers, the notification
writer creates exactly N new primary records and N new donor-scoped index
records, each notification carrying a fresh identifier, a false read flag
and the urgency copied from the request; there is no deduplication, so a
second invocation with the same request and donor list adds N further
records again instead of leaving the store unchanged. Identifier freshness
of the random uuid supply is expressed by the Nodup and kvGet-none
hypotheses. -/
theorem notifyDonors_fanout (requests : List BloodRequest) (hospitals : List Hospital)
    (store : KVStore) (uuid uuid2 : Nat → String) (now now2 : Nat) (rid : String)
    (dids : List String) (req : BloodRequest) (hosp : Hospital)
    (batch batch2 : List Notification)
    (hb : batch = mkNotifications uuid now rid req hosp.name 0 dids)
    (hb2 : batch2 = mkNotifications uuid2 now2 rid req hosp.name 0 dids)
    (hrid : rid ≠ "")
    (hreq : requests.find? (fun r => r.id == rid) = some req)
    (hhosp : hospitals.find? (fun h => h.id == req.hospital_id) = some hosp)
    (hnd : (notifKeys batch).Nodup)
    (hfresh : ∀ k ∈ notifKeys batch, kvGet store k = none)
    (hnd2 : (notifKeys batch2).Nodup)
    (hfresh2 : ∀ k ∈ notifKeys batch2, kvGet (store ++ notifPairs batch) k = none) :
    notifyDonors requests hospitals store uuid now (some rid) (some dids) =
      Except.ok { store := store ++ notifPairs batch, notifications_count := dids.length } ∧
    countPrimary (store ++ notifPairs batch) = countPrimary store + dids.length ∧
    countIndex (store ++ notifPairs batch) = countIndex store + dids.length ∧
    (∀ n ∈ batch, n.read = false ∧ n.urgency = req.urgency ∧
      kvGet store (nKey n.id) = none) ∧
    notifyDonors requests hospitals (store ++ notifPairs batch) uuid2 now2
        (some rid) (some dids) =
      Except.ok { store := (store ++ notifPairs batch) ++ notifPairs batch2
                  notifications_count := dids.length } ∧
    countPrimary ((store ++ notifPairs batch) ++ notifPairs batch2) =
      countPrimary (store ++ notifPairs batch) + dids.length := by
  have hlen : batch.length = dids.length := by
    rw [hb]; exact mkNotifications_length uuid now rid req hosp.name 0 dids
  have hlen2 : batch2.length = dids.length := by
    rw [hb2]; exact mkNotifications_length uuid2 now2 rid req hosp.name 0 dids
  refine ⟨?_, ?_, ?_, ?_, ?_, ?_⟩
  · rw [hb]
    exact notifyDonors_ok requests hospitals store uuid now rid dids req hosp hrid hreq hhosp
      (hb ▸ hnd) (hb ▸ hfresh)
  · rw [countPrimary_append, countPrimary_notifPairs, hlen]
  · rw [countIndex_append, countIndex_notifPairs, hlen]
  · intro n hnmem
    have hf := mkNotifications_fields uuid now rid req hosp.name 0 dids n (hb ▸ hnmem)
    exact ⟨hf.1, hf.2.1, hfresh _ (nKey_mem_notifKeys _ _ hnmem)⟩
  · rw [hb2]
    exact notifyDonors_ok requests hospitals (store ++ notifPairs batch) uuid2 now2 rid dids
      req hosp hrid hreq hhosp (hb2 ▸ hnd2) (hb2 ▸ hfresh2)
  · rw [countPrimary_append, countPrimary_notifPairs, hlen2]

/-- Sample blood request used by the C3 witness. -/
def reqSample : BloodRequest := ⟨"r1", "p9", "h1", "A+", "High", "active"⟩

/-- Sample hospital used by the C3 witness. -/
def hospSample : Hospital := ⟨"h1", "City Hospital", "1 Main St"⟩

/-- Sample uuid supply for the first C3 invocation. -/
def uuidA : Nat → String := fun i => "u" ++ toString i

/-- Sample uuid supply for the second C3 invocation. -/
def uuidB : Nat → String := fun i => "v" ++ toString i

/-- First sample notification batch for the C3 witness. -/
def batchA : List Notification :=
  mkNotifications uuidA 5 "r1" reqSample hospSample.name 0 ["d1", "d2"]

/-- Second sample notification batch for the C3 witness. -/
def batchB : List Notification :=
  mkNotifications uuidB 7 "r1" reqSample hospSample.name 0 ["d1", "d2"]

/-- Witness for C3: a concrete double invocation with two donors. -/
theorem notifyDonors_fanout_witness :
    notifyDonors [reqSample] [hospSample] [] uuidA 5 (some "r1") (some ["d1", "d2"]) =
      Except.ok ⟨[] ++ notifPairs batchA, 2⟩ ∧
    countPrimary ([] ++ notifPairs batchA) = countPrimary [] + 2 ∧
    notifyDonors [reqSample] [hospSample] ([] ++ notifPairs batchA)
        uuidB 7 (some "r1") (some ["d1", "d2"]) =
      Except.ok ⟨([] ++ notifPairs batchA) ++ notifPairs batchB, 2⟩ := by
  have h := notifyDonors_fanout [reqSample] [hospSample] [] uuidA uuidB 5 7 "r1"
    ["d1", "d2"] reqSample hospSample batchA batchB
    rfl rfl (by decide) (by decide) (by decide) (by decide)
    (by intro k hk; rfl) (by decide) (by decide)
  exact ⟨h.1, h.2.1, h.2.2.2.2.1⟩

/-- Insertion into a list sorted by creation timestamp descending. -/
def insertDesc (n : Notification) : List Notification → List Notification
  | [] => [n]
  | m :: ms => if m.created_at ≤ n.created_at then n :: m :: ms else m :: insertDesc n ms

/-- Sort notifications by creation timestamp descending, modelling the
comparator subtracting timestamps in the reader. -/
def sortDesc : List Notification → List Notification
  | [] => []
  | n :: ns => insertDesc n (sortDesc ns)

/-- Sortedness by creation timestamp, newest first. -/
def SortedDesc (l : List Notification) : Prop :=
  List.Pairwise (fun a b => b.created_at ≤ a.created_at) l

/-- GET /notifications with a donor id (index.tsx lines 165-198): reject a
caller whose identity differs from the requested donor, scan the index keys
under the donor prefix, resolve each to its primary record, silently drop
dangling entries, and sort newest first. -/
def getNotifications (store : KVStore) (callerId donorId : String) :
    Except Nat (List Notification) :=
  if callerId = donorId then
    Except.ok (sortDesc
      ((store.filter (fun e => isPrefixB (dPrefix donorId) e.1)).filterMap
        (fun e =>
          match e.2 with
          | KVValue.str i =>
            match kvGet store (nKey i) with
            | some (KVValue.notif n) => some n
            | _ => none
          | KVValue.notif _ => none)))
  else Except.error 403

/-- Absence of the key separator character in a string. -/
abbrev colonFree (s : String) : Prop := ':' ∉ s.data

/-- Well-formed notification store: every entry is either a primary record
holding a notification, or a donor-scoped index entry whose donor component
is colon-free and whose target, when resolvable, belongs to that donor.
Stores reachable through the notify pathway with uuid-shaped identifiers
have this shape. -/
def WFStore (store : KVStore) : Prop :=
  ∀ e ∈ store,
    (∃ i n, e.1 = nKey i ∧ e.2 = KVValue.notif n) ∨
    (∃ d i, e.1 = dKey d i ∧ e.2 = KVValue.str i ∧ colonFree d ∧
      ∀ n, kvGet store (nKey i) = some (KVValue.notif n) → n.donor_id = d)

theorem mem_insertDesc (n a : Notification) (l : List Notification)
    (h : a ∈ insertDesc n l) : a = n ∨ a ∈ l := by
  induction l with
  | nil => simpa [insertDesc] using h
  | cons m ms ih =>
    simp only [insertDesc] at h
    split at h
    · simpa using h
    · rcases List.mem_cons.mp h with h1 | h1
      · exact Or.inr (h1 ▸ List.mem_cons_self m ms)
      · rcases ih h1 with h2 | h2
        · exact Or.inl h2
        · exact Or.inr (List.mem_cons_of_mem m h2)

theorem mem_sortDesc (a : Notification) (l : List Notification)
    (h : a ∈ sortDesc l) : a ∈ l := by
  induction l with
  | nil => simp [sortDesc] at h
  | cons m ms ih =>
    simp only [sortDesc] at h
    rcases mem_insertDesc m a (sortDesc ms) h with h1 | h1
    · exact h1 ▸ List.mem_cons_self m ms
    · exact List.mem_cons_of_mem m (ih h1)

theorem sortedDesc_insertDesc (n : Notification) (l : List Notification)
    (h : SortedDesc l) : SortedDesc (insertDesc n l) := by
  induction l with
  | nil => simp [insertDesc, SortedDesc]
  | cons m ms ih =>
    simp only [SortedDesc, List.pairwise_cons] at h
    simp only [insertDesc]
    split
    · refine List.Pairwise.cons ?_ (List.Pairwise.cons h.1 h.2)
      intro b hb
      rcases List.mem_cons.mp hb with h1 | h1
      · subst h1; assumption
      · exact Nat.le_trans (h.1 b h1) (by assumption)
    · refine List.Pairwise.cons ?_ (ih h.2)
      intro b hb
      rcases mem_insertDesc n b ms hb with h1 | h1
      · subst h1
        exact Nat.le_of_not_le (by assumption)
      · exact h.1 b h1

theorem sortedDesc_sortDesc (l : List Notification) : SortedDesc (sortDesc l) := by
  induction l with
  | nil => simp [sortDesc, SortedDesc]
  | cons m ms ih => exact sortedDesc_insertDesc m (sortDesc ms) ih

theorem isPrefixB_append_cancel (l t1 t2 : List Char) :
    isPrefixB (l ++ t1) (l ++ t2) = isPrefixB t1 t2 := by
  induction l with
  | nil => rfl
  | cons a as ih => simp [isPrefixB, ih]

theorem colon_sep_inj (x : List Char) : ∀ (d tail : List Char), ':' ∉ x → ':' ∉ d →
    isPrefixB (x ++ [':']) (d ++ ':' :: tail) = true → x = d := by
  induction x with
  | nil =>
    intro d tail _ hd h
    cases d with
    | nil => rfl
    | cons c d2 =>
      exfalso
      simp only [List.nil_append, List.cons_append, isPrefixB, Bool.and_eq_true,
        decide_eq_true_eq] at h
      exact hd (h.1 ▸ List.mem_cons_self c d2)
  | cons a x2 ih =>
    intro d tail hx hd h
    cases d with
    | nil =>
      exfalso
      simp only [List.cons_append, List.nil_append, isPrefixB, Bool.and_eq_true,
        decide_eq_true_eq] at h
      exact hx (h.1 ▸ List.mem_cons_self a x2)
    | cons c d2 =>
      simp only [List.cons_append, isPrefixB, Bool.and_eq_true, decide_eq_true_eq] at h
      have hx2 : ':' ∉ x2 := fun hh => hx (List.mem_cons_of_mem a hh)
      have hd2 : ':' ∉ d2 := fun hh => hd (List.mem_cons_of_mem c hh)
      rw [h.1, ih d2 tail hx2 hd2 h.2]

/-- The notification written when notify-donors is invoked with the
colon-carrying donor identifier used in the C4 counterexample. -/
def leakNotif : Notification :=
  ⟨"u0", "a:b", "r1", "New blood donation request: A+ needed at City Hospital",
    "High", 5, false⟩

/-- Store state reached from an empty store by one notify-donors call with
donor identifier list containing only the string a colon b. -/
def leakStore : KVStore :=
  [(nKey "u0", KVValue.notif leakNotif), (dKey "a:b" "u0", KVValue.str "u0")]

/-- C4 counterexample: the claim that the reader for donor X returns only
notifications with donor_id equal to X fails on reachable stores. Because
index keys are built by string concatenation, a donor identifier containing
the separator character aliases another donor prefix: after notifying donor
id a colon b, the reader invoked by caller a for donor a returns that
notification, whose donor_id differs from a. -/
theorem getNotifications_cross_donor_leak :
    notifyDonors [reqSample] [hospSample] [] uuidA 5 (some "r1") (some ["a:b"]) =
      Except.ok ⟨leakStore, 1⟩ ∧
    getNotifications leakStore "a" "a" = Except.ok [leakNotif] ∧
    leakNotif.donor_id ≠ "a" :=
  ⟨rfl, rfl, by decide⟩

/-- C4 (amended): assuming the donor identifiers embedded in index keys are
colon-free (as the uuid-shaped identities produced by the auth layer are)
and the store is well formed, the reader rejects any caller other than the
requested donor with 403, and otherwise returns only notifications whose
donor_id is the requested donor, sorted by creation timestamp descending. -/
theorem getNotifications_spec (store : KVStore) (caller X : String)
    (hwf : WFStore store) (hX : colonFree X) :
    (caller ≠ X → getNotifications store caller X = Except.error 403) ∧
    ∀ l, getNotifications store X X = Except.ok l →
      (∀ n ∈ l, n.donor_id = X) ∧ SortedDesc l := by
  constructor
  · intro hne
    unfold getNotifications
    rw [if_neg hne]
  · intro l hl
    unfold getNotifications at hl
    rw [if_pos rfl] at hl
    injection hl with hl
    subst hl
    constructor
    · intro n hn
      have hn2 := mem_sortDesc n _ hn
      obtain ⟨e, he, hfe⟩ := List.mem_filterMap.mp hn2
      obtain ⟨hestore, hepref⟩ := List.mem_filter.mp he
      obtain ⟨k, v⟩ := e
      cases v with
      | notif m => simp at hfe
      | str i =>
        rcases hwf ⟨k, KVValue.str i⟩ hestore with ⟨i2, n2, _, hv⟩ | ⟨d, i2, hk, hv, hcf, himp⟩
        · exact absurd hv (by simp)
        · have hi : i = i2 := by
            injection hv
          subst hi
          subst hk
          have hpref : isPrefixB (dPrefix X) (dKey d i) = true := hepref
          have hXd : X.data = d.data := by
            have h1 : dPrefix X = donorMarker ++ (X.data ++ [':']) := by
              simp [dPrefix, List.append_assoc]
            have h2 : dKey d i = donorMarker ++ (d.data ++ ':' :: i.data) := by
              simp [dKey, dPrefix, List.append_assoc]
            rw [h1, h2, isPrefixB_append_cancel] at hpref
            exact colon_sep_inj X.data d.data i.data hX hcf hpref
          have hXd2 : X = d := by
            cases X
            cases d
            exact congrArg String.mk hXd
          subst hXd2
          have hfe2 : (match kvGet store (nKey i) with
              | some (KVValue.notif m) => some m
              | _ => none) = some n := hfe
          cases hkv : kvGet store (nKey i) with
          | none => rw [hkv] at hfe2; simp at hfe2
          | some v2 =>
            cases v2 with
            | str s2 => rw [hkv] at hfe2; simp at hfe2
            | notif m =>
              rw [hkv] at hfe2
              simp only [Option.some.injEq] at hfe2
              subst hfe2
              exact himp _ hkv
    · exact sortedDesc_sortDesc _

/-- Notification stored in the well-formed C4 witness store. -/
def wfNotif : Notification := ⟨"u0", "d1", "r1", "m", "High", 5, false⟩

/-- Well-formed two-entry store for the C4 witness. -/
def wfStoreSample : KVStore :=
  [(nKey "u0", KVValue.notif wfNotif), (dKey "d1" "u0", KVValue.str "u0")]

/-- Witness for the amended C4 theorem on a concrete well-formed store. -/
theorem getNotifications_spec_witness :
    getNotifications wfStoreSample "z" "d1" = Except.error 403 ∧
    getNotifications wfStoreSample "d1" "d1" = Except.ok [wfNotif] ∧
    wfNotif.donor_id = "d1" ∧ SortedDesc [wfNotif] := by
  have hwf : WFStore wfStoreSample := by
    intro e he
    simp only [wfStoreSample, List.mem_cons, List.not_mem_nil, or_false] at he
    rcases he with he | he
    · subst he
      exact Or.inl ⟨"u0", wfNotif, rfl, rfl⟩
    · subst he
      refine Or.inr ⟨"d1", "u0", rfl, rfl, by decide, ?_⟩
      intro n hn
      have hev : kvGet wfStoreSample (nKey "u0") = some (KVValue.notif wfNotif) := rfl
      rw [hev] at hn
      injection hn with hn2
      injection hn2 with hn3
      rw [← hn3]
      rfl
  have h := getNotifications_spec wfStoreSample "z" "d1" hwf (by decide)
  have hok : getNotifications wfStoreSample "d1" "d1" = Except.ok [wfNotif] := rfl
  have h2 := getNotifications_spec wfStoreSample "d1" "d1" hwf (by decide)
  exact ⟨h.1 (by decide), hok,
    (h2.2 [wfNotif] hok).1 wfNotif (List.mem_cons_self _ _), (h2.2 [wfNotif] hok).2⟩

/-- PUT /notifications with a notification id and read suffix (index.tsx
lines 201-222). The authenticated caller is available but never consulted.
A missing record gives 404; a record holding a bare string would make the
property assignment throw in strict mode, surfacing as the generic 500;
otherwise the record is rewritten with the read flag set. -/
def markNotificationRead (caller : String) (store : KVStore)
    (notificationId : String) : Except Nat KVStore :=
  match kvGet store (nKey notificationId) with
  | none => Except.error 404
  | some (KVValue.str _) => Except.error 500
  | some (KVValue.notif n) =>
    Except.ok (kvSet store (nKey notificationId) (KVValue.notif { n with read := true }))

/-- C8: marking an existing notification as read flips exactly its read
flag: the stored record keeps every other field, every other key of the
store is unchanged, and a missing identifier yields 404 with no write. -/
theorem markNotificationRead_frame (caller : String) (store : KVStore) (id : String) :
    (∀ n, kvGet store (nKey id) = some (KVValue.notif n) →
      markNotificationRead caller store id =
        Except.ok (kvSet store (nKey id) (KVValue.notif { n with read := true })) ∧
      kvGet (kvSet store (nKey id) (KVValue.notif { n with read := true })) (nKey id) =
        some (KVValue.notif { n with read := true }) ∧
      ({ n with read := true }).id = n.id ∧
      ({ n with read := true }).donor_id = n.donor_id ∧
      ({ n with read := true }).request_id = n.request_id ∧
      ({ n with read := true }).message = n.message ∧
      ({ n with read := true }).urgency = n.urgency ∧
      ({ n with read := true }).created_at = n.created_at ∧
      ({ n with read := true }).read = true ∧
      ∀ k, k ≠ nKey id →
        kvGet (kvSet store (nKey id) (KVValue.notif { n with read := true })) k =
          kvGet store k) ∧
    (kvGet store (nKey id) = none → markNotificationRead caller store id = Except.error 404) := by
  constructor
  · intro n hn
    refine ⟨?_, kvGet_kvSet_self store (nKey id) _, rfl, rfl, rfl, rfl, rfl, rfl, rfl, ?_⟩
    · unfold markNotificationRead
      rw [hn]
    · intro k hk
      exact kvGet_kvSet_ne store (nKey id) k _ hk
  · intro h
    unfold markNotificationRead
    rw [h]

/-- Notification used by the mark-as-read witnesses. -/
def readNotif : Notification := ⟨"n1", "d1", "r1", "m", "High", 5, false⟩

/-- One-record store used by the mark-as-read witnesses. -/
def markStore : KVStore := [(nKey "n1", KVValue.notif readNotif)]

/-- Witness for C8: concrete present and absent identifiers. -/
theorem markNotificationRead_frame_witness :
    markNotificationRead "caller" markStore "n1" =
      Except.ok (kvSet markStore (nKey "n1") (KVValue.notif { readNotif with read := true })) ∧
    markNotificationRead "caller" markStore "zz" = Except.error 404 := by
  have h1 := markNotificationRead_frame "caller" markStore "n1"
  have h2 := markNotificationRead_frame "caller" markStore "zz"
  exact ⟨(h1.1 readNotif rfl).1, h2.2 rfl⟩

/-- C10: the mark-as-read operation performs no ownership check: its result
does not depend on the caller, it succeeds on an existing notification even
when the caller differs from the notification donor, it never returns 403,
and 404 occurs exactly when the record is absent. -/
theorem markNotificationRead_no_ownership (caller caller2 : String) (store : KVStore)
    (id : String) :
    markNotificationRead caller store id = markNotificationRead caller2 store id ∧
    (∀ n, kvGet store (nKey id) = some (KVValue.notif n) → caller ≠ n.donor_id →
      markNotificationRead caller store id =
        Except.ok (kvSet store (nKey id) (KVValue.notif { n with read := true }))) ∧
    (∀ e, markNotificationRead caller store id = Except.error e → e ≠ 403) ∧
    (markNotificationRead caller store id = Except.error 404 ↔
      kvGet store (nKey id) = none) := by
  refine ⟨rfl, ?_, ?_, ?_⟩
  · intro n hn _
    unfold markNotificationRead
    rw [hn]
  · intro e he
    unfold markNotificationRead at he
    split at he
    · injection he with he2
      omega
    · injection he with he2
      omega
    · exact absurd he (by simp)
  · constructor
    · intro h
      unfold markNotificationRead at h
      split at h
      · assumption
      · injection h with h2
        omega
      · exact absurd h (by simp)
    · intro h
      unfold markNotificationRead
      rw [h]

/-- Witness for C10: a caller different from the donor still succeeds. -/
theorem markNotificationRead_no_ownership_witness :
    markNotificationRead "z" markStore "n1" =
      Except.ok (kvSet markStore (nKey "n1") (KVValue.notif { readNotif with read := true })) ∧
    ("z" : String) ≠ readNotif.donor_id := by
  have h := markNotificationRead_no_ownership "z" "w" markStore "n1"
  exact ⟨h.2.1 readNotif rfl (by decide), by decide⟩

/-- Row of the profiles table as selected by the authorization checks:
role and hospital affiliation. -/
structure VProfile where
  id : String
  role : String
  hospital_id : Option String
deriving DecidableEq, Repr

/-- Serve handler of verify-blood-request
(src/supabase/functions/verify-blood-request/index.ts lines 41-103): 403
unless the caller profile resolves with role hospital_admin; 400 on a
missing or empty (falsy) request id; 404 unless a blood_requests row
matches both the id and the admin hospital affiliation; then the update
sets status to active on the row with that id and the response carries the
updated row. -/
def verifyBloodRequest (profiles : List VProfile) (requests : List BloodRequest)
    (userId : String) (request_id : Option String) :
    Except Nat (List BloodRequest × BloodRequest) :=
  match profiles.find? (fun p => p.id == userId) with
  | none => Except.error 403
  | some profile =>
    if profile.role ≠ "hospital_admin" then Except.error 403
    else
      match request_id with
      | none => Except.error 400
      | some rid =>
        if rid = "" then Except.error 400
        else
          match requests.find? (fun r =>
              r.id == rid && some r.hospital_id == profile.hospital_id) with
          | none => Except.error 404
          | some req =>
            Except.ok
              (requests.map (fun r => if r.id = rid then { r with status := "active" } else r),
               { req with status := "active" })

/-- Hospital-admin profile used in the C5 theorems. -/
def adminProf : VProfile := ⟨"u1", "hospital_admin", some "h1"⟩

/-- Already-fulfilled request used in the C5 counterexample. -/
def fulfilledReq : BloodRequest := ⟨"r1", "p1", "h1", "A+", "High", "fulfilled"⟩

/-- C5 counterexample: the operation does not restrict itself to the
pending-verification to active transition. Invoked by the affiliated
hospital admin on a request whose status is fulfilled, it succeeds and
rewrites the status to active, a transition the claim excludes. -/
theorem verifyBloodRequest_overwrites_any_status :
    fulfilledReq.status = "fulfilled" ∧
    ("fulfilled" : String) ≠ "pending_verification" ∧
    verifyBloodRequest [adminProf] [fulfilledReq] "u1" (some "r1") =
      Except.ok ([{ fulfilledReq with status := "active" }],
        { fulfilledReq with status := "active" }) :=
  ⟨rfl, by decide, rfl⟩

/-- C5 (amended): the authorization behaviour is as claimed: 403 when the
caller profile is missing or not a hospital admin, 404 when no request
matches both the id and the admin affiliation; but on success the status
is set to active whatever its previous value was (the pending-verification
precondition is not checked), the matched request belongs to the admin
hospital, and every other request is carried over unchanged. -/
theorem verifyBloodRequest_spec (profiles : List VProfile) (requests : List BloodRequest)
    (userId : String) (rid : String) :
    (profiles.find? (fun p => p.id == userId) = none →
      verifyBloodRequest profiles requests userId (some rid) = Except.error 403) ∧
    (∀ prof, profiles.find? (fun p => p.id == userId) = some prof →
      prof.role ≠ "hospital_admin" →
      verifyBloodRequest profiles requests userId (some rid) = Except.error 403) ∧
    (∀ prof, profiles.find? (fun p => p.id == userId) = some prof →
      prof.role = "hospital_admin" → rid ≠ "" →
      requests.find? (fun r => r.id == rid && some r.hospital_id == prof.hospital_id) = none →
      verifyBloodRequest profiles requests userId (some rid) = Except.error 404) ∧
    (∀ prof req, profiles.find? (fun p => p.id == userId) = some prof →
      prof.role = "hospital_admin" → rid ≠ "" →
      requests.find? (fun r => r.id == rid && some r.hospital_id == prof.hospital_id) =
        some req →
      verifyBloodRequest profiles requests userId (some rid) =
        Except.ok
          (requests.map (fun r => if r.id = rid then { r with status := "active" } else r),
           { req with status := "active" }) ∧
      ({ req with status := "active" }).status = "active" ∧
      req.id = rid ∧ some req.hospital_id = prof.hospital_id ∧
      ∀ r ∈ requests, r.id ≠ rid →
        r ∈ requests.map (fun r2 => if r2.id = rid then { r2 with status := "active" } else r2)) := by
  have hred : ∀ prof, profiles.find? (fun p => p.id == userId) = some prof →
      verifyBloodRequest profiles requests userId (some rid) =
        (if prof.role ≠ "hospital_admin" then Except.error 403
         else if rid = "" then Except.error 400
         else
           match requests.find? (fun r =>
               r.id == rid && some r.hospital_id == prof.hospital_id) with
           | none => Except.error 404
           | some req =>
             Except.ok
               (requests.map (fun r =>
                  if r.id = rid then { r with status := "active" } else r),
                { req with status := "active" })) := by
    intro prof hp
    unfold verifyBloodRequest
    rw [hp]
  refine ⟨?_, ?_, ?_, ?_⟩
  · intro h
    unfold verifyBloodRequest
    rw [h]
  · intro prof hp hrole
    rw [hred prof hp, if_pos hrole]
  · intro prof hp hrole hrid hnone
    rw [hred prof hp, if_neg (by simp [hrole]), if_neg hrid, hnone]
  · intro prof req hp hrole hrid hsome
    have hpred := List.find?_some hsome
    simp only [Bool.and_eq_true, beq_iff_eq] at hpred
    refine ⟨?_, rfl, hpred.1, hpred.2, ?_⟩
    · rw [hred prof hp, if_neg (by simp [hrole]), if_neg hrid, hsome]
    · intro r hr hne
      exact List.mem_map.mpr ⟨r, hr, by rw [if_neg hne]⟩

/-- Pending request used in the C5 witness. -/
def pendingReq : BloodRequest := ⟨"r2", "p1", "h1", "B-", "Low", "pending_verification"⟩

/-- Witness for the amended C5 theorem: a successful verification and a
role-mismatch rejection at concrete inputs. -/
theorem verifyBloodRequest_spec_witness :
    verifyBloodRequest [adminProf] [pendingReq] "u1" (some "r2") =
      Except.ok ([{ pendingReq with status := "active" }],
        { pendingReq with status := "active" }) ∧
    verifyBloodRequest [⟨"u2", "individual", none⟩] [pendingReq] "u2" (some "r2") =
      Except.error 403 := by
  have h1 := verifyBloodRequest_spec [adminProf] [pendingReq] "u1" "r2"
  have h2 := verifyBloodRequest_spec [⟨"u2", "individual", none⟩] [pendingReq] "u2" "r2"
  exact ⟨(h1.2.2.2 adminProf pendingReq rfl rfl (by decide) rfl).1,
    h2.2.1 ⟨"u2", "individual", none⟩ rfl (by decide)⟩

/-- Row of the donations table (columns used by the analytics handler). -/
structure Donation where
  id : String
  hospital_id : String
  donor_id : String
  donation_date : Nat
deriving DecidableEq, Repr

/-- One step of the blood-type distribution accumulation, modelling the
JavaScript object increment with insertion-ordered keys. -/
def bump (acc : List (String × Nat)) (k : String) : List (String × Nat) :=
  match acc with
  | [] => [(k, 1)]
  | (k1, c) :: rest => if k1 = k then (k1, c + 1) :: rest else (k1, c) :: bump rest k

/-- Statistics body returned by the hospital analytics endpoint. -/
structure HospitalStats where
  total_requests : Nat
  active_requests : Nat
  fulfilled_requests : Nat
  pending_requests : Nat
  total_donations : Nat
  blood_type_distribution : List (String × Nat)
  urgency_critical : Nat
  urgency_high : Nat
  urgency_medium : Nat
  urgency_low : Nat
deriving DecidableEq, Repr

/-- GET /analytics/hospital with a hospital id (index.tsx lines 288-349).
The gate rejects with 403 when the profile is missing, or when the role is
not platform_admin and the stored hospital_id differs from the requested
one; the role hospital_admin itself is never tested. Otherwise the
per-hospital breakdowns are computed. -/
def hospitalAnalytics (profiles : List VProfile) (requests : List BloodRequest)
    (donations : List Donation) (userId hospitalId : String) :
    Except Nat HospitalStats :=
  match profiles.find? (fun p => p.id == userId) with
  | none => Except.error 403
  | some profile =>
    if profile.role ≠ "platform_admin" ∧ profile.hospital_id ≠ some hospitalId then
      Except.error 403
    else
      let hreqs := requests.filter (fun r => r.hospital_id == hospitalId)
      let hdons := donations.filter (fun d => d.hospital_id == hospitalId)
      Except.ok
        { total_requests := hreqs.length
          active_requests := (hreqs.filter (fun r => r.status == "active")).length
          fulfilled_requests := (hreqs.filter (fun r => r.status == "fulfilled")).length
          pending_requests := (hreqs.filter (fun r => r.status == "pending_verification")).length
          total_donations := hdons.length
          blood_type_distribution := hreqs.foldl (fun acc r => bump acc r.blood_group_needed) []
          urgency_critical := (hreqs.filter (fun r => r.urgency == "Critical")).length
          urgency_high := (hreqs.filter (fun r => r.urgency == "High")).length
          urgency_medium := (hreqs.filter (fun r => r.urgency == "Medium")).length
          urgency_low := (hreqs.filter (fun r => r.urgency == "Low")).length }

/-- Profile with role individual but a hospital affiliation, used in the
C6 counterexample. -/
def indivProf : VProfile := ⟨"u2", "individual", some "h1"⟩

/-- Statistics of a hospital with no requests and no donations. -/
def emptyStats : HospitalStats := ⟨0, 0, 0, 0, 0, [], 0, 0, 0, 0⟩

/-- C6 counterexample: the endpoint does not return 403 for every caller
outside the platform-admin and affiliated-hospital-admin roles. A caller
whose profile has role individual but whose stored hospital_id equals the
requested hospital is served the analytics data, because the gate compares
only the affiliation and never tests for the hospital_admin role. -/
theorem hospitalAnalytics_role_not_checked :
    hospitalAnalytics [indivProf] [] [] "u2" "h1" = Except.ok emptyStats ∧
    indivProf.role ≠ "platform_admin" ∧ indivProf.role ≠ "hospital_admin" :=
  ⟨rfl, by decide, by decide⟩

/-- C6 (amended): the endpoint returns 403 exactly when the caller profile
is missing, or the role is not platform_admin and the stored affiliation
differs from the requested hospital; membership in the hospital_admin role
is not itself required. In particular a hospital admin affiliated with one
hospital requesting another hospital receives 403. -/
theorem hospitalAnalytics_auth (profiles : List VProfile) (requests : List BloodRequest)
    (donations : List Donation) (userId hid : String) :
    (hospitalAnalytics profiles requests donations userId hid = Except.error 403 ↔
      (profiles.find? (fun p => p.id == userId) = none ∨
       ∃ prof, profiles.find? (fun p => p.id == userId) = some prof ∧
         prof.role ≠ "platform_admin" ∧ prof.hospital_id ≠ some hid)) ∧
    (∀ prof, profiles.find? (fun p => p.id == userId) = some prof →
      prof.role = "hospital_admin" → prof.hospital_id ≠ some hid →
      hospitalAnalytics profiles requests donations userId hid = Except.error 403) := by
  have hred : ∀ prof, profiles.find? (fun p => p.id == userId) = some prof →
      hospitalAnalytics profiles requests donations userId hid =
        (if prof.role ≠ "platform_admin" ∧ prof.hospital_id ≠ some hid then
           Except.error 403
         else
           Except.ok
             { total_requests := (requests.filter (fun r => r.hospital_id == hid)).length
               active_requests := ((requests.filter (fun r => r.hospital_id == hid)).filter
                 (fun r => r.status == "active")).length
               fulfilled_requests := ((requests.filter (fun r => r.hospital_id == hid)).filter
                 (fun r => r.status == "fulfilled")).length
               pending_requests := ((requests.filter (fun r => r.hospital_id == hid)).filter
                 (fun r => r.status == "pending_verification")).length
               total_donations := (donations.filter (fun d => d.hospital_id == hid)).length
               blood_type_distribution := (requests.filter
                 (fun r => r.hospital_id == hid)).foldl
                   (fun acc r => bump acc r.blood_group_needed) []
               urgency_critical := ((requests.filter (fun r => r.hospital_id == hid)).filter
                 (fun r => r.urgency == "Critical")).length
               urgency_high := ((requests.filter (fun r => r.hospital_id == hid)).filter
                 (fun r => r.urgency == "High")).length
               urgency_medium := ((requests.filter (fun r => r.hospital_id == hid)).filter
                 (fun r => r.urgency == "Medium")).length
               urgency_low := ((requests.filter (fun r => r.hospital_id == hid)).filter
                 (fun r => r.urgency == "Low")).length }) := by
    intro prof hp
    unfold hospitalAnalytics
    rw [hp]
  constructor
  · cases hf : profiles.find? (fun p => p.id == userId) with
    | none =>
      constructor
      · intro _
        exact Or.inl rfl
      · intro _
        unfold hospitalAnalytics
        rw [hf]
    | some prof =>
      by_cases hc : prof.role ≠ "platform_admin" ∧ prof.hospital_id ≠ some hid
      · constructor
        · intro _
          exact Or.inr ⟨prof, rfl, hc⟩
        · intro _
          rw [hred prof hf, if_pos hc]
      · constructor
        · intro h
          rw [hred prof hf, if_neg hc] at h
          exact absurd h (by simp)
        · intro h
          rcases h with h | ⟨prof2, hp2, hc2⟩
          · exact absurd h (by simp)
          · injection hp2 with he
            subst he
            exact absurd hc2 hc
  · intro prof hp hrole hne
    rw [hred prof hp, if_pos ⟨by rw [hrole]; decide, hne⟩]

/-- Hospital-admin profile affiliated with hospital h1, for the C6 witness. -/
def admH1Prof : VProfile := ⟨"u3", "hospital_admin", some "h1"⟩

/-- Witness for the amended C6 theorem: the end-to-end scenario of an
admin of hospital h1 requesting analytics of hospital h2. -/
theorem hospitalAnalytics_auth_witness :
    hospitalAnalytics [admH1Prof] [] [] "u3" "h2" = Except.error 403 := by
  have h := hospitalAnalytics_auth [admH1Prof] [] [] "u3" "h2"
  exact h.2 admH1Prof rfl rfl (by decide)

/-- Authorization context of the client-side helpers: the signed-in user
and the loaded profile row, either of which may be absent. -/
structure AuthCtx where
  user : Option String
  profile : Option VProfile
deriving DecidableEq, Repr

/-- JavaScript truthiness of an optional string argument: absent and empty
strings are falsy. -/
def truthyStr : Option String → Bool
  | none => false
  | some s => s ≠ ""

/-- Helper canAccessHospital from the authorization utilities: false
without user and profile; platform admins always pass; hospital admins
pass exactly for their own affiliation; every other role fails. -/
def canAccessHospital (ctx : AuthCtx) (hospitalId : String) : Bool :=
  match ctx.user, ctx.profile with
  | some _, some p =>
    if p.role = "platform_admin" then true
    else if p.role = "hospital_admin" then p.hospital_id == some hospitalId
    else false
  | _, _ => false

/-- Helper canManageBloodRequests from the authorization utilities
(unnamed part_001 lines 123-139): false without user and profile; platform
admins always pass; hospital admins pass when a truthy hospital argument is
supplied and equals their stored affiliation; in every remaining case,
including a hospital admin invoked without a hospital argument, the helper
returns false. -/
def canManageBloodRequests (ctx : AuthCtx) (hospitalId : Option String) : Bool :=
  match ctx.user, ctx.profile with
  | some _, some p =>
    if p.role = "platform_admin" then true
    else if p.role = "hospital_admin" && truthyStr hospitalId then p.hospital_id == hospitalId
    else false
  | _, _ => false

/-- Context of a signed-in hospital admin affiliated with h1, used in the
C7 theorems. -/
def hadmCtx : AuthCtx := ⟨some "u1", some ⟨"u1", "hospital_admin", some "h1"⟩⟩

/-- C7 counterexample: the claim that a hospital admin with no hospital
argument is granted management over any hospital fails: the helper returns
false when the hospital argument is absent, because the truthiness guard on
the argument short-circuits the admin branch. -/
theorem canManageBloodRequests_none_denied :
    canManageBloodRequests hadmCtx none = false := rfl

/-- C7 (amended): the helper grants management exactly to platform admins,
and to hospital admins that supply a truthy (present and non-empty)
hospital argument equal to their stored affiliation; with no argument, an
empty argument, an absent user or profile, or any other role it denies.
For every truthy argument it agrees with the hospital-access helper. -/
theorem canManageBloodRequests_spec (ctx : AuthCtx) (hospitalId : Option String) :
    (canManageBloodRequests ctx hospitalId = true ↔
      (∃ u p, ctx.user = some u ∧ ctx.profile = some p ∧
        (p.role = "platform_admin" ∨
         (p.role = "hospital_admin" ∧ ∃ h, hospitalId = some h ∧ h ≠ "" ∧
           p.hospital_id = some h)))) ∧
    (∀ h : String, h ≠ "" →
      canManageBloodRequests ctx (some h) = canAccessHospital ctx h) := by
  obtain ⟨u, p⟩ := ctx
  constructor
  · cases u with
    | none => simp [canManageBloodRequests]
    | some uv =>
      cases p with
      | none => simp [canManageBloodRequests]
      | some pv =>
        simp only [canManageBloodRequests]
        by_cases h1 : pv.role = "platform_admin"
        · simp [h1]
        · by_cases h2 : pv.role = "hospital_admin"
          · cases hospitalId with
            | none => simp [h1, h2, truthyStr]
            | some hv =>
              by_cases h3 : hv = ""
              · subst h3
                simp [h1, h2, truthyStr]
              · simp [h1, h2, h3, truthyStr, beq_iff_eq]
          · simp [h1, h2]
  · intro h hne
    cases u with
    | none => rfl
    | some uv =>
      cases p with
      | none => rfl
      | some pv =>
        simp only [canManageBloodRequests, canAccessHospital]
        by_cases h1 : pv.role = "platform_admin"
        · simp [h1]
        · by_cases h2 : pv.role = "hospital_admin"
          · simp [h1, h2, truthyStr, hne]
          · simp [h1, h2]

/-- Witness for the amended C7 theorem: a hospital admin with a matching
truthy argument is granted, and the helper agrees with hospital access. -/
theorem canManageBloodRequests_spec_witness :
    canManageBloodRequests hadmCtx (some "h1") = true ∧
    canManageBloodRequests hadmCtx (some "h1") = canAccessHospital hadmCtx "h1" := by
  have h := canManageBloodRequests_spec hadmCtx (some "h1")
  exact ⟨h.1.mpr ⟨"u1", ⟨"u1", "hospital_admin", some "h1"⟩, rfl, rfl,
    Or.inr ⟨rfl, "h1", rfl, by decide, rfl⟩⟩, h.2 "h1" (by decide)⟩
